import Mathlib

/-!
Shallow embedding of the Blood-Donation server (`src/server.js`): the donor
registry (POST /api/donors) and the proximity search (GET /api/donors/search),
together with proofs of the specification claims about them.

Conventions of the embedding:
* The MySQL `donors` table is a `List Donor`; `AUTO_INCREMENT` ids are
  `length + 1` (rows are never deleted).
* JSON request bodies are records of `Option` fields (`none` = the key is
  absent / `undefined`); the JavaScript truthiness test
  `!name || !age || !bloodGroup || !phone || !latitude || !longitude`
  is `validInput` (empty string and the number 0 are falsy).
* `DECIMAL` coordinates are exact rationals `ℚ`; the SQL trigonometry in the
  search query is carried out over `ℝ` (exact-real semantics of the formula).
* The `UNIQUE` constraint on `phone` (the `ER_DUP_ENTRY` branch) and the
  `NOT NULL` columns are enforced by the storage model inside `register`.
-/

namespace BloodDonation

/-- A row of the `donors` table created by `createTableQuery` in
`src/server.js` (the `registration_date` column is never read by any route
and is omitted). -/
structure Donor where
  id : Nat
  name : String
  age : ℚ
  bloodGroup : String
  phone : String
  email : String
  address : String
  latitude : ℚ
  longitude : ℚ
deriving DecidableEq

/-- The JSON body of `POST /api/donors`, destructured at the top of the
handler; `none` models an absent key. -/
structure RegisterInput where
  name : Option String
  age : Option ℚ
  bloodGroup : Option String
  phone : Option String
  email : Option String
  address : Option String
  latitude : Option ℚ
  longitude : Option ℚ
deriving DecidableEq

/-- JavaScript truthiness of a possibly-absent string: `undefined` and `""`
are falsy. -/
def truthyStr : Option String → Bool
  | none => false
  | some s => s != ""

/-- JavaScript truthiness of a possibly-absent number: `undefined` and `0`
are falsy. -/
def truthyNum : Option ℚ → Bool
  | none => false
  | some q => q != 0

/-- The handler's check
`!name || !age || !bloodGroup || !phone || !latitude || !longitude`
(note: `email` and `address` are not checked, and no range check is done). -/
def validInput (inp : RegisterInput) : Bool :=
  truthyStr inp.name && truthyNum inp.age && truthyStr inp.bloodGroup &&
    truthyStr inp.phone && truthyNum inp.latitude && truthyNum inp.longitude

/-- Outcome of `POST /api/donors`: HTTP 201 with the new id, 400 on the
truthiness check, 409 on `ER_DUP_ENTRY`, 500 on any other storage error. -/
inductive RegisterResult where
  | ok (donorId : Nat)
  | validationError
  | duplicateError
  | storageError
deriving DecidableEq

/-- The row built by `insertQuery` from a request body that passed the
truthiness check (the `getD` defaults are never exercised on such bodies). -/
def mkDonor (st : List Donor) (inp : RegisterInput) : Donor where
  id := st.length + 1
  name := inp.name.getD ""
  age := inp.age.getD 0
  bloodGroup := inp.bloodGroup.getD ""
  phone := inp.phone.getD ""
  email := inp.email.getD ""
  address := inp.address.getD ""
  latitude := inp.latitude.getD 0
  longitude := inp.longitude.getD 0

/-- The `POST /api/donors` handler: truthiness validation, then the atomic
`INSERT`.  The storage layer rejects a `NULL` `email`/`address`
(`NOT NULL` columns — surfaced as a 500, not a validation error) and a
duplicate `phone` (`UNIQUE` — the `ER_DUP_ENTRY` branch, surfaced as 409).
A failed call returns the table unchanged.  Coordinates are modelled only
within the `DECIMAL(10,8)`/`DECIMAL(11,8)` column ranges (|latitude| < 100,
|longitude| < 1000): a value beyond them is a strict-mode out-of-range
storage error, and every input considered below fits the columns. -/
def register (st : List Donor) (inp : RegisterInput) :
    RegisterResult × List Donor :=
  if !validInput inp then (.validationError, st)
  else if inp.email.isNone || inp.address.isNone then (.storageError, st)
  else if st.any (fun d => d.phone == inp.phone.getD "") then
    (.duplicateError, st)
  else (.ok (st.length + 1), st ++ [mkDonor st inp])

/-- The `WHERE bloodGroup = ?` scan of the search query (the registry's
`findByBloodGroup` operation), before distance filtering and ordering. -/
def findByBloodGroup (st : List Donor) (bg : String) : List Donor :=
  st.filter (fun d => d.bloodGroup == bg)

/-! ### The proximity search (`GET /api/donors/search`) -/

/-- MySQL `RADIANS`: degrees to radians. -/
noncomputable def rad (x : ℝ) : ℝ := x * Real.pi / 180

/-- The argument of `ACOS` in `searchQuery`:
`cos(radians(lat1)) * cos(radians(lat2)) * cos(radians(lon2) - radians(lon1))
 + sin(radians(lat1)) * sin(radians(lat2))`
where `(lat1, lon1)` is the request origin and `(lat2, lon2)` the donor row. -/
noncomputable def cosArg (lat1 lon1 lat2 lon2 : ℝ) : ℝ :=
  Real.cos (rad lat1) * Real.cos (rad lat2) * Real.cos (rad lon2 - rad lon1) +
    Real.sin (rad lat1) * Real.sin (rad lat2)

/-- The `distance` column of `searchQuery`: `6371 * ACOS(cosArg)`,
kilometres on a sphere of radius 6371 km. -/
noncomputable def distance (lat1 lon1 lat2 lon2 : ℝ) : ℝ :=
  6371 * Real.arccos (cosArg lat1 lon1 lat2 lon2)

/-- Clamping to `[-1, 1]`, as the spec's numeric note asks to apply to the
`ACOS` argument.  The SQL in `src/server.js` does not clamp; over exact
reals this is provably the identity on every value `cosArg` can take. -/
noncomputable def clamp (x : ℝ) : ℝ := max (-1) (min 1 x)

/-- A row of the search result set:
`SELECT id, name, bloodGroup, phone, latitude, longitude, ... AS distance`. -/
structure MatchRow where
  id : Nat
  name : String
  bloodGroup : String
  phone : String
  latitude : ℚ
  longitude : ℚ
  distance : ℝ

/-- The `ORDER BY distance` comparison between result rows. -/
def distLE (a b : MatchRow) : Prop := a.distance ≤ b.distance

noncomputable instance : DecidableRel distLE :=
  fun a b => inferInstanceAs (Decidable (a.distance ≤ b.distance))

instance : IsTotal MatchRow distLE := ⟨fun a b => le_total a.distance b.distance⟩

instance : IsTrans MatchRow distLE := ⟨fun _ _ _ h1 h2 => le_trans h1 h2⟩

/-- The result row the query builds from a donor row, with its computed
`distance` column (origin `(olat, olon)` from the query string). -/
noncomputable def mkRow (olat olon : ℚ) (d : Donor) : MatchRow where
  id := d.id
  name := d.name
  bloodGroup := d.bloodGroup
  phone := d.phone
  latitude := d.latitude
  longitude := d.longitude
  distance := distance olat olon d.latitude d.longitude

/-- The unsorted result set of `searchQuery`: the `WHERE bloodGroup = ?`
scan, the computed `distance` column, and the strict `HAVING distance < ?`
filter. -/
noncomputable def qualifying (olat olon : ℚ) (bg : String) (radiusKm : ℝ)
    (st : List Donor) : List MatchRow :=
  ((st.filter (fun d => d.bloodGroup == bg)).map (mkRow olat olon)).filter
    (fun m => decide (m.distance < radiusKm))

/-- What `ORDER BY distance` guarantees for the result of `searchQuery`:
the result holds exactly the qualifying rows and is non-decreasing in the
`distance` key.  MySQL leaves the relative order of rows with equal
`ORDER BY` keys unspecified, so every key-sorted permutation of the
qualifying rows is an admissible result of the query. -/
def isSearchResult (olat olon : ℚ) (bg : String) (radiusKm : ℝ)
    (st : List Donor) (res : List MatchRow) : Prop :=
  res.Perm (qualifying olat olon bg radiusKm st) ∧ res.Sorted distLE

/-- One admissible `searchQuery` result, used to make the handler a
function: a particular ascending sort of the qualifying rows.  Which
admissible result MySQL actually returns is unspecified for tied
distances; every claim proved about the handler below is insensitive to
that choice. -/
noncomputable def searchRows (olat olon : ℚ) (bg : String) (radiusKm : ℝ)
    (st : List Donor) : List MatchRow :=
  List.insertionSort distLE (qualifying olat olon bg radiusKm st)

/-- Outcome of `GET /api/donors/search`: HTTP 200 with the rows, or 400 from
the truthiness check on the query parameters. -/
inductive SearchResult where
  | ok (rows : List MatchRow)
  | validationError

/-- The `GET /api/donors/search` handler.  Query parameters arrive as
strings, so a numeric parameter is falsy only when absent or empty — here
`none`; `bloodGroup` is falsy when absent or `""`.  The radius is the fixed
`searchRadiusKm = 15`. -/
noncomputable def searchHandler (olat olon : Option ℚ) (bg : Option String)
    (st : List Donor) : SearchResult :=
  if olat.isNone || olon.isNone || !truthyStr bg then .validationError
  else .ok (searchRows (olat.getD 0) (olon.getD 0) (bg.getD "") 15 st)

/-! ### Concrete sample values -/

/-- A complete, well-formed registration body. -/
def regInputAsha : RegisterInput where
  name := some "Asha"
  age := some 30
  bloodGroup := some "B+"
  phone := some "9000000001"
  email := some "asha@example.com"
  address := some "Delhi"
  latitude := some 29
  longitude := some 77

/-- A second complete body carrying the same phone number as
`regInputAsha`. -/
def regInputBela : RegisterInput where
  name := some "Bela"
  age := some 25
  bloodGroup := some "O+"
  phone := some "9000000001"
  email := some "bela@example.com"
  address := some "Mumbai"
  latitude := some 19
  longitude := some 73

/-- A body whose fields are all present and truthy but malformed: the age is
negative and the coordinates are outside the geographic ranges (latitude 95,
longitude 185).  All three values fit the table's columns (`INT`,
`DECIMAL(10,8)` with |value| < 100, `DECIMAL(11,8)` with |value| < 1000),
so the insert stores them as given. -/
def outOfRangeInput : RegisterInput where
  name := some "Cara"
  age := some (-5)
  bloodGroup := some "A+"
  phone := some "9000000002"
  email := some "cara@example.com"
  address := some "Nowhere"
  latitude := some 95
  longitude := some 185

/-- A body that is complete except that its latitude is the (in-range)
number 0. -/
def zeroLatInput : RegisterInput where
  name := some "Devi"
  age := some 35
  bloodGroup := some "AB+"
  phone := some "9000000003"
  email := some "devi@example.com"
  address := some "Accra"
  latitude := some 0
  longitude := some 77

/-- A first donor row at the coordinate origin (blood group A+). -/
def donorEve : Donor where
  id := 1
  name := "Eve"
  age := 30
  bloodGroup := "A+"
  phone := "9000000011"
  email := "eve@example.com"
  address := "Here"
  latitude := 0
  longitude := 0

/-- A second, distinct donor row at the same coordinates as `donorEve`. -/
def donorFay : Donor where
  id := 2
  name := "Fay"
  age := 31
  bloodGroup := "A+"
  phone := "9000000012"
  email := "fay@example.com"
  address := "Here"
  latitude := 0
  longitude := 0

/-- A body with every field absent. -/
def emptyInput : RegisterInput where
  name := none
  age := none
  bloodGroup := none
  phone := none
  email := none
  address := none
  latitude := none
  longitude := none

/-! ### Helper lemmas about the registry -/

/-- The truthiness check fails exactly when one of the six checked fields is
absent, the empty string, or the number 0.  `email` and `address` do not
appear, and no range condition does either. -/
lemma validInput_eq_false_iff (inp : RegisterInput) :
    validInput inp = false ↔
      inp.name = none ∨ inp.name = some "" ∨
      inp.age = none ∨ inp.age = some 0 ∨
      inp.bloodGroup = none ∨ inp.bloodGroup = some "" ∨
      inp.phone = none ∨ inp.phone = some "" ∨
      inp.latitude = none ∨ inp.latitude = some 0 ∨
      inp.longitude = none ∨ inp.longitude = some 0 := by
  rcases inp with ⟨nm, ag, bg, ph, em, ad, la, lo⟩
  cases nm <;> cases ag <;> cases bg <;> cases ph <;> cases la <;> cases lo <;>
    (simp [validInput, truthyStr, truthyNum]; try tauto)

/-- A successful registration appends exactly the built row, returns the new
id, and can only happen when the body passed the truthiness check and no
stored row already carries the phone number. -/
lemma register_ok_elim {st : List Donor} {inp : RegisterInput} {i : Nat}
    {st1 : List Donor} (h : register st inp = (.ok i, st1)) :
    validInput inp = true ∧
      (st.any (fun d => d.phone == inp.phone.getD "")) = false ∧
      i = st.length + 1 ∧ st1 = st ++ [mkDonor st inp] := by
  unfold register at h
  split_ifs at h with hv hn hd
  · exact absurd h (by simp)
  · exact absurd h (by simp)
  · exact absurd h (by simp)
  · refine ⟨by simpa using hv, by simpa using hd, ?_, ?_⟩
    · exact (RegisterResult.ok.injEq .. ▸ congrArg Prod.fst h).symm
    · exact (congrArg Prod.snd h).symm

/-! ### Claim theorems -/

/-- C6: the computed great-circle distance is symmetric:
`distance(A, B) = distance(B, A)` for every pair of coordinate points. -/
theorem spec_c6 (lat1 lon1 lat2 lon2 : ℝ) :
    distance lat1 lon1 lat2 lon2 = distance lat2 lon2 lat1 lon1 := by
  unfold distance cosArg
  rw [show rad lon1 - rad lon2 = -(rad lon2 - rad lon1) from by ring,
    Real.cos_neg]
  ring_nf

/-- C10: a registration whose latitude, longitude or age is the number 0 is
rejected by the truthiness check exactly as a missing field would be, with
no insert attempted (the stored table is returned unchanged). -/
theorem spec_c10 (st : List Donor) (inp : RegisterInput)
    (h : inp.latitude = some 0 ∨ inp.longitude = some 0 ∨ inp.age = some 0) :
    register st inp = (RegisterResult.validationError, st) := by
  have hv : validInput inp = false := by
    rcases h with h | h | h <;> simp [validInput, truthyNum, h]
  simp [register, hv]

/-- Witness for C10 at a concrete body: latitude 0, everything else valid. -/
theorem spec_c10_witness :
    register [] zeroLatInput = (RegisterResult.validationError, []) :=
  spec_c10 [] zeroLatInput (Or.inl rfl)

/-- C4 (amended): `register` fails with `ValidationError` exactly when one of
`name`, `age`, `bloodGroup`, `phone`, `latitude`, `longitude` is absent,
the empty string, or the number 0; a validation failure leaves the stored
table untouched.  `email`/`address` presence, age positivity and coordinate
ranges are not validated. -/
theorem spec_c4 (st : List Donor) (inp : RegisterInput) :
    ((register st inp).1 = RegisterResult.validationError ↔
      inp.name = none ∨ inp.name = some "" ∨
      inp.age = none ∨ inp.age = some 0 ∨
      inp.bloodGroup = none ∨ inp.bloodGroup = some "" ∨
      inp.phone = none ∨ inp.phone = some "" ∨
      inp.latitude = none ∨ inp.latitude = some 0 ∨
      inp.longitude = none ∨ inp.longitude = some 0) ∧
    ((register st inp).1 = RegisterResult.validationError →
      (register st inp).2 = st) := by
  rw [← validInput_eq_false_iff]
  cases hvb : validInput inp
  · simp [register, hvb]
  · have hne : (register st inp).1 ≠ RegisterResult.validationError := by
      unfold register
      rw [hvb]
      split_ifs <;> simp_all
    refine ⟨⟨fun h => absurd h hne, fun h => absurd h (by simp)⟩, ?_⟩
    exact fun h => absurd h hne

/-- Witness for C4 at a concrete body with every field absent. -/
theorem spec_c4_witness :
    (register [] emptyInput).1 = RegisterResult.validationError :=
  (spec_c4 [] emptyInput).1.mpr (Or.inl rfl)

/-- Counterexample to C4 as stated: a body with a negative age, latitude 95
and longitude 185 — malformed by the claim's constraints, and all storable
in the table's `INT`/`DECIMAL(10,8)`/`DECIMAL(11,8)` columns — passes the
handler's check, the insert is attempted, and the row is durably written
with those values — no `ValidationError`. -/
theorem spec_c4_cex :
    (register [] outOfRangeInput).1 = RegisterResult.ok 1 ∧
      (register [] outOfRangeInput).2 = [mkDonor [] outOfRangeInput] := by
  constructor <;> rfl

/-- C8 (amended): the search fails with `ValidationError` exactly when the
origin latitude, origin longitude or blood group parameter is absent (or the
blood group is the empty string); out-of-range origin coordinates are not
rejected. -/
theorem spec_c8 (olat olon : Option ℚ) (bg : Option String)
    (st : List Donor) :
    (searchHandler olat olon bg st = SearchResult.validationError ↔
      olat = none ∨ olon = none ∨ bg = none ∨ bg = some "") := by
  unfold searchHandler
  cases olat <;> cases olon <;> cases bg <;> simp [truthyStr]

/-- Witness for C8: all parameters absent. -/
theorem spec_c8_witness :
    searchHandler none none none [] = SearchResult.validationError :=
  (spec_c8 none none none []).mpr (Or.inl rfl)

/-- Counterexample to C8 as stated: origin (200, 500) is far outside the
geographic ranges, yet the handler performs the search and answers 200 with
a row list instead of failing with `ValidationError`. -/
theorem spec_c8_cex :
    searchHandler (some 200) (some 500) (some "A+") [] = SearchResult.ok [] :=
  rfl

/-- C9: searching a blood group no stored donor carries (for instance a
value outside the recognised set) yields the empty ordered sequence as an
ordinary non-error result. -/
theorem spec_c9 (olat olon : ℚ) (bg : String) (st : List Donor)
    (h1 : bg ≠ "") (h2 : ∀ d ∈ st, d.bloodGroup ≠ bg) :
    searchHandler (some olat) (some olon) (some bg) st = SearchResult.ok [] := by
  have hfilter : st.filter (fun d => d.bloodGroup == bg) = [] := by
    rw [List.filter_eq_nil_iff]
    intro d hd
    simpa using h2 d hd
  simp [searchHandler, truthyStr, h1, searchRows, qualifying, hfilter,
    List.insertionSort]

/-- Witness for C9: one stored B+ donor, searching "O-". -/
theorem spec_c9_witness :
    searchHandler (some 28.6139) (some 77.2090) (some "O-")
      [mkDonor [] regInputAsha] = SearchResult.ok [] :=
  spec_c9 28.6139 77.2090 "O-" [mkDonor [] regInputAsha] (by decide)
    (by decide)

/-- C3: once a registration with a phone number has succeeded, a second
complete registration carrying the same phone number fails with the
duplicate error and writes no row (the table is returned unchanged); and a
successful registration preserves the invariant that no two stored rows
share a phone number. -/
theorem spec_c3 (st : List Donor) (in1 in2 : RegisterInput) (i : Nat)
    (st1 : List Donor) (h1 : register st in1 = (.ok i, st1))
    (h2 : validInput in2 = true) (h3 : in2.email ≠ none)
    (h4 : in2.address ≠ none) (h5 : in2.phone = in1.phone) :
    register st1 in2 = (RegisterResult.duplicateError, st1) ∧
      (st.Pairwise (fun a b => a.phone ≠ b.phone) →
        st1.Pairwise (fun a b => a.phone ≠ b.phone)) := by
  obtain ⟨hv1, hdup, hi, hst1⟩ := register_ok_elim h1
  constructor
  · have hany : (st1.any fun d => d.phone == in2.phone.getD "") = true := by
      subst hst1
      simp [List.any_append, mkDonor, h5]
    simp [register, h2, Option.isNone_iff_eq_none, h3, h4, hany]
  · intro hp
    subst hst1
    rw [List.pairwise_append]
    refine ⟨hp, List.pairwise_singleton _ _, ?_⟩
    intro a ha b hb
    have hbmem : b = mkDonor st in1 := by simpa using hb
    subst hbmem
    have hdup' : ∀ x ∈ st, ¬x.phone = in1.phone.getD "" := by
      simpa using hdup
    simpa [mkDonor] using hdup' a ha

/-- Witness for C3: registering `regInputAsha` into the empty table, then
`regInputBela` (same phone) into the result. -/
theorem spec_c3_witness :
    register [mkDonor [] regInputAsha] regInputBela =
      (RegisterResult.duplicateError, [mkDonor [] regInputAsha]) :=
  (spec_c3 [] regInputAsha regInputBela 1 [mkDonor [] regInputAsha]
    (by decide) (by decide) (by decide) (by decide) rfl).1

/-- C7: a successful registration immediately followed by
`findByBloodGroup` on the donor's blood group returns that donor's row
exactly once. -/
theorem spec_c7 (st : List Donor) (inp : RegisterInput) (i : Nat)
    (st1 : List Donor) (bg : String) (h1 : register st inp = (.ok i, st1))
    (h2 : inp.bloodGroup = some bg) :
    (findByBloodGroup st1 bg).count (mkDonor st inp) = 1 := by
  obtain ⟨hv1, hdup, hi, hst1⟩ := register_ok_elim h1
  subst hst1
  have hnotmem : mkDonor st inp ∉ st := by
    intro hmem
    have hdup' : ∀ x ∈ st, ¬x.phone = inp.phone.getD "" := by
      simpa using hdup
    exact hdup' _ hmem rfl
  unfold findByBloodGroup
  rw [List.filter_append]
  have hbgrow : ((mkDonor st inp).bloodGroup == bg) = true := by
    simp [mkDonor, h2]
  rw [List.count_append]
  have hzero : (st.filter fun d => d.bloodGroup == bg).count
      (mkDonor st inp) = 0 := by
    rw [List.count_eq_zero]
    intro hmem
    exact hnotmem (List.mem_of_mem_filter hmem)
  simp [hzero, List.filter_singleton, hbgrow]

/-- Witness for C7: register `regInputAsha` into the empty table, then scan
for "B+". -/
theorem spec_c7_witness :
    (findByBloodGroup [mkDonor [] regInputAsha] "B+").count
      (mkDonor [] regInputAsha) = 1 :=
  spec_c7 [] regInputAsha 1 [mkDonor [] regInputAsha] "B+" (by decide) rfl

/-- Over exact reals the `ACOS` argument of the search query is never below
-1. -/
lemma neg_one_le_cosArg (lat1 lon1 lat2 lon2 : ℝ) :
    -1 ≤ cosArg lat1 lon1 lat2 lon2 := by
  unfold cosArg
  have h1 := Real.sin_sq_add_cos_sq (rad lat1)
  have h2 := Real.sin_sq_add_cos_sq (rad lat2)
  have hx1 := Real.neg_one_le_cos (rad lon2 - rad lon1)
  have hx2 := Real.cos_le_one (rad lon2 - rad lon1)
  have hA : -1 ≤ Real.cos (rad lat1) * Real.cos (rad lat2) +
      Real.sin (rad lat1) * Real.sin (rad lat2) := by
    nlinarith [sq_nonneg (Real.cos (rad lat1) + Real.cos (rad lat2)),
      sq_nonneg (Real.sin (rad lat1) + Real.sin (rad lat2))]
  have hB : Real.cos (rad lat1) * Real.cos (rad lat2) -
      Real.sin (rad lat1) * Real.sin (rad lat2) ≤ 1 := by
    nlinarith [sq_nonneg (Real.cos (rad lat1) - Real.cos (rad lat2)),
      sq_nonneg (Real.sin (rad lat1) + Real.sin (rad lat2))]
  nlinarith [mul_nonneg (by linarith : (0:ℝ) ≤ 1 + Real.cos (rad lon2 - rad lon1))
      (by linarith : (0:ℝ) ≤ 1 + (Real.cos (rad lat1) * Real.cos (rad lat2) +
        Real.sin (rad lat1) * Real.sin (rad lat2))),
    mul_nonneg (by linarith : (0:ℝ) ≤ 1 - Real.cos (rad lon2 - rad lon1))
      (by linarith : (0:ℝ) ≤ 1 - (Real.cos (rad lat1) * Real.cos (rad lat2) -
        Real.sin (rad lat1) * Real.sin (rad lat2)))]

/-- Over exact reals the `ACOS` argument of the search query never exceeds
1. -/
lemma cosArg_le_one (lat1 lon1 lat2 lon2 : ℝ) :
    cosArg lat1 lon1 lat2 lon2 ≤ 1 := by
  unfold cosArg
  have h1 := Real.sin_sq_add_cos_sq (rad lat1)
  have h2 := Real.sin_sq_add_cos_sq (rad lat2)
  have hx1 := Real.neg_one_le_cos (rad lon2 - rad lon1)
  have hx2 := Real.cos_le_one (rad lon2 - rad lon1)
  have hA : Real.cos (rad lat1) * Real.cos (rad lat2) +
      Real.sin (rad lat1) * Real.sin (rad lat2) ≤ 1 := by
    nlinarith [sq_nonneg (Real.cos (rad lat1) - Real.cos (rad lat2)),
      sq_nonneg (Real.sin (rad lat1) - Real.sin (rad lat2))]
  have hB : -1 ≤ Real.cos (rad lat1) * Real.cos (rad lat2) -
      Real.sin (rad lat1) * Real.sin (rad lat2) := by
    nlinarith [sq_nonneg (Real.cos (rad lat1) + Real.cos (rad lat2)),
      sq_nonneg (Real.sin (rad lat1) - Real.sin (rad lat2))]
  nlinarith [mul_nonneg (by linarith : (0:ℝ) ≤ 1 + Real.cos (rad lon2 - rad lon1))
      (by linarith : (0:ℝ) ≤ 1 - (Real.cos (rad lat1) * Real.cos (rad lat2) +
        Real.sin (rad lat1) * Real.sin (rad lat2))),
    mul_nonneg (by linarith : (0:ℝ) ≤ 1 - Real.cos (rad lon2 - rad lon1))
      (by linarith : (0:ℝ) ≤ 1 + (Real.cos (rad lat1) * Real.cos (rad lat2) -
        Real.sin (rad lat1) * Real.sin (rad lat2)))]

/-- At coincident points the exact value of the `ACOS` argument computed by
`searchQuery` is exactly 1 — the upper boundary of `ACOS`'s domain, with no
margin below it.  Any upward rounding of `cos·cos·cos + sin·sin` in double
arithmetic therefore leaves the domain, which is the overshoot the spec's
numeric note describes. -/
lemma cosArg_self (lat lon : ℝ) : cosArg lat lon lat lon = 1 := by
  unfold cosArg
  rw [sub_self, Real.cos_zero]
  nlinarith [Real.sin_sq_add_cos_sq (rad lat)]

/-- Exact-real evaluation of the unclamped query at coincident points. -/
lemma distance_self (lat lon : ℝ) : distance lat lon lat lon = 0 := by
  rw [distance, cosArg_self, Real.arccos_one, mul_zero]

/-- C5 (code bug): `searchQuery` calls `ACOS` with no clamp, although the
spec requires the argument to be clamped to `[-1, 1]` first.  At coincident
points the argument's exact value sits exactly on the domain boundary 1, so
the floating-point overshoot named by the claim makes MySQL's unguarded
`ACOS` return NULL (the row is then silently dropped by `HAVING`), instead
of the claimed `distance(A,A) = 0`.  This theorem records both sides of the
divergence in the embedding: the unclamped argument is exactly 1 at the
boundary, and the clamped computation the claim describes evaluates to
exactly 0. -/
theorem spec_c5 (lat lon : ℝ) :
    cosArg lat lon lat lon = 1 ∧
      6371 * Real.arccos (clamp (cosArg lat lon lat lon)) = 0 ∧
      distance lat lon lat lon = 0 := by
  refine ⟨cosArg_self lat lon, ?_, distance_self lat lon⟩
  rw [cosArg_self]
  rw [show clamp 1 = 1 from by rw [clamp]; norm_num]
  rw [Real.arccos_one, mul_zero]

/-! ### The search result set -/

/-- C2 (amended): every result set the query may return — any `isSearchResult`,
since MySQL fixes only the `ORDER BY` key order — consists of exactly the
stored donors of the requested blood group whose computed distance is
strictly below the fixed 15 km radius, ordered non-decreasingly by the
`distance` column; the handler's concrete result is such a result set.  The
relative order of rows at equal distance is left unspecified by the
program. -/
theorem spec_c2 (olat olon : ℚ) (bg : String) (st : List Donor) :
    (∀ res : List MatchRow, isSearchResult olat olon bg 15 st res →
      ((∀ m : MatchRow, m ∈ res ↔
          ∃ d ∈ st, d.bloodGroup = bg ∧ m = mkRow olat olon d ∧
            m.distance < 15) ∧
        List.Sorted distLE res ∧ ∀ m ∈ res, m.distance < 15)) ∧
    isSearchResult olat olon bg 15 st (searchRows olat olon bg 15 st) := by
  constructor
  · rintro res ⟨hperm, hsort⟩
    have hmem : ∀ m : MatchRow, m ∈ res ↔
        ∃ d ∈ st, d.bloodGroup = bg ∧ m = mkRow olat olon d ∧
          m.distance < 15 := by
      intro m
      rw [hperm.mem_iff]
      unfold qualifying
      simp only [List.mem_filter, List.mem_map, beq_iff_eq, decide_eq_true_eq]
      constructor
      · rintro ⟨⟨d, ⟨hd, hbg⟩, hmk⟩, hdist⟩
        exact ⟨d, hd, hbg, hmk.symm, hdist⟩
      · rintro ⟨d, hd, hbg, hmk, hdist⟩
        exact ⟨⟨d, ⟨hd, hbg⟩, hmk.symm⟩, hdist⟩
    refine ⟨hmem, hsort, ?_⟩
    intro m hm
    exact ((hmem m).mp hm).choose_spec.2.2.2
  · exact ⟨List.perm_insertionSort distLE _, List.sorted_insertionSort distLE _⟩

/-- Witness for C2 at a concrete instantiation: the handler's result on the
empty table is an admissible result set and is sorted. -/
theorem spec_c2_witness : List.Sorted distLE (searchRows 0 0 "A+" 15 []) :=
  ((spec_c2 0 0 "A+" []).1 _ (spec_c2 0 0 "A+" []).2).2.1

/-- A row built from a donor stored at the query origin is at distance
exactly 0. -/
lemma mkRow_dist_self (d : Donor) (hlat : d.latitude = 0)
    (hlon : d.longitude = 0) : (mkRow 0 0 d).distance = 0 := by
  show distance ((0 : ℚ) : ℝ) ((0 : ℚ) : ℝ) (d.latitude : ℝ)
      (d.longitude : ℝ) = 0
  rw [hlat, hlon, Rat.cast_zero]
  exact distance_self 0 0

/-- The qualifying rows for the two coincident A+ donors, seen from their
shared point: both pass the blood-group scan and the strict 15 km filter
(their computed distance is exactly 0). -/
lemma qualifying_pair :
    qualifying 0 0 "A+" 15 [donorEve, donorFay] =
      [mkRow 0 0 donorEve, mkRow 0 0 donorFay] := by
  have hE : (mkRow 0 0 donorEve).distance = 0 := mkRow_dist_self _ rfl rfl
  have hF : (mkRow 0 0 donorFay).distance = 0 := mkRow_dist_self _ rfl rfl
  have hE15 : decide ((mkRow 0 0 donorEve).distance < 15) = true :=
    decide_eq_true (by rw [hE]; norm_num)
  have hF15 : decide ((mkRow 0 0 donorFay).distance < 15) = true :=
    decide_eq_true (by rw [hF]; norm_num)
  unfold qualifying
  rw [show [donorEve, donorFay].filter (fun d => d.bloodGroup == "A+") =
      [donorEve, donorFay] from rfl]
  rw [List.map_cons, List.map_cons, List.map_nil]
  simp [List.filter_cons, hE15, hF15]

/-- Counterexample to C2 as stated: for two distinct donors stored at the
same point (both at distance exactly 0 from the origin), the row sequence
with the two tied rows swapped relative to their stored order is an
admissible result of the query — the same rows in non-decreasing key order
— so the program does not guarantee that candidates at equal distance
appear in their relative input order. -/
theorem spec_c2_cex :
    isSearchResult 0 0 "A+" 15 [donorEve, donorFay]
        [mkRow 0 0 donorFay, mkRow 0 0 donorEve] ∧
      (mkRow 0 0 donorFay).distance = (mkRow 0 0 donorEve).distance ∧
      mkRow 0 0 donorFay ≠ mkRow 0 0 donorEve := by
  have hE : (mkRow 0 0 donorEve).distance = 0 := mkRow_dist_self _ rfl rfl
  have hF : (mkRow 0 0 donorFay).distance = 0 := mkRow_dist_self _ rfl rfl
  refine ⟨⟨?_, ?_⟩, ?_, ?_⟩
  · rw [qualifying_pair]
    exact List.Perm.swap _ _ _
  · simp [List.sorted_cons, distLE, hE, hF]
  · rw [hE, hF]
  · intro h
    have hname := congrArg MatchRow.name h
    simp [mkRow, donorEve, donorFay] at hname

/-! ### Numeric evaluation of the Delhi example -/

/-- Two-sided rational bounds on `cos x` from the quartic Taylor bound, for
`x` inside a positive rational interval within `(0, 1]`. -/
lemma cos_near_one_bounds {x lo hi : ℝ} (hlo : lo < x) (hhi : x < hi)
    (h0 : 0 < lo) (h1 : hi ≤ 1) :
    1 - hi ^ 2 / 2 - hi ^ 4 * (5 / 96) < Real.cos x ∧
      Real.cos x < 1 - lo ^ 2 / 2 + hi ^ 4 * (5 / 96) := by
  have hxpos : 0 < x := lt_trans h0 hlo
  have hxabs : |x| ≤ 1 := by
    rw [abs_of_pos hxpos]
    linarith
  have hb := abs_le.mp (Real.cos_bound hxabs)
  rw [abs_of_pos hxpos] at hb
  have hx2hi : x ^ 2 < hi ^ 2 := by nlinarith
  have hx2lo : lo ^ 2 < x ^ 2 := by nlinarith
  have hx4 : x ^ 4 < hi ^ 4 := by nlinarith [sq_nonneg x, sq_nonneg hi]
  have hx4pos : 0 < x ^ 4 := by positivity
  constructor
  · linarith [hb.1]
  · linarith [hb.2]

set_option maxHeartbeats 1600000 in
/-- Rational bounds on the `ACOS` argument for the spec's Delhi example:
origin (28.6139, 77.2090), candidate (28.7041, 77.1025). -/
lemma delhi_carg_bounds :
    1 - 0.0000026 < cosArg 28.6139 77.2090 28.7041 77.1025 ∧
      cosArg 28.6139 77.2090 28.7041 77.1025 < 1 - 0.0000025 := by
  have hp1 : (3.141592 : ℝ) < Real.pi := Real.pi_gt_d6
  have hp2 : Real.pi < 3.141593 := Real.pi_lt_d6
  -- the four radian magnitudes involved
  have hu : (0.0015742866 : ℝ) < 451 * Real.pi / 900000 ∧
      (451 : ℝ) * Real.pi / 900000 < 0.0015742872 :=
    ⟨by linarith, by linarith⟩
  have hv : (0.0018587752 : ℝ) < 71 * Real.pi / 120000 ∧
      (71 : ℝ) * Real.pi / 120000 < 0.001858776 :=
    ⟨by linarith, by linarith⟩
  have ha1 : (0.4994066 : ℝ) < 28.6139 * Real.pi / 180 ∧
      (28.6139 : ℝ) * Real.pi / 180 < 0.4994069 :=
    ⟨by linarith, by linarith⟩
  have ha2 : (0.5009809 : ℝ) < 28.7041 * Real.pi / 180 ∧
      (28.7041 : ℝ) * Real.pi / 180 < 0.5009812 :=
    ⟨by linarith, by linarith⟩
  -- cosine bounds at those magnitudes
  have hcu := cos_near_one_bounds hu.1 hu.2 (by norm_num) (by norm_num)
  have hcu' : (0.9999987608 : ℝ) < Real.cos (451 * Real.pi / 900000) ∧
      Real.cos (451 * Real.pi / 900000) < 0.99999876082 :=
    ⟨by nlinarith [hcu.1], by nlinarith [hcu.2]⟩
  have hcv := cos_near_one_bounds hv.1 hv.2 (by norm_num) (by norm_num)
  have hcv' : (0.9999982724 : ℝ) < Real.cos (71 * Real.pi / 120000) ∧
      Real.cos (71 * Real.pi / 120000) < 0.9999982725 :=
    ⟨by nlinarith [hcv.1], by nlinarith [hcv.2]⟩
  have hca1 := cos_near_one_bounds ha1.1 ha1.2 (by norm_num) (by norm_num)
  have hca1' : (0.872 : ℝ) < Real.cos (28.6139 * Real.pi / 180) ∧
      Real.cos (28.6139 * Real.pi / 180) < 0.8786 :=
    ⟨by nlinarith [hca1.1], by nlinarith [hca1.2]⟩
  have hca2 := cos_near_one_bounds ha2.1 ha2.2 (by norm_num) (by norm_num)
  have hca2' : (0.8712 : ℝ) < Real.cos (28.7041 * Real.pi / 180) ∧
      Real.cos (28.7041 * Real.pi / 180) < 0.8778 :=
    ⟨by nlinarith [hca2.1], by nlinarith [hca2.2]⟩
  -- the product of latitude cosines
  have hP : (0.7596 : ℝ) < Real.cos (28.6139 * Real.pi / 180) *
        Real.cos (28.7041 * Real.pi / 180) ∧
      Real.cos (28.6139 * Real.pi / 180) *
        Real.cos (28.7041 * Real.pi / 180) < 0.7713 := by
    constructor
    · nlinarith [mul_pos (show (0:ℝ) < Real.cos (28.6139 * Real.pi / 180) by
        linarith [hca1'.1]) (show (0:ℝ) <
          Real.cos (28.7041 * Real.pi / 180) - 0.8712 by linarith [hca2'.1])]
    · nlinarith [mul_pos (show (0:ℝ) < Real.cos (28.7041 * Real.pi / 180) by
        linarith [hca2'.1]) (show (0:ℝ) <
          (0.8786 : ℝ) - Real.cos (28.6139 * Real.pi / 180) by
            linarith [hca1'.2])]
  -- the correction term P * (1 - cos v)
  have h1cv : (0.0000017275 : ℝ) < 1 - Real.cos (71 * Real.pi / 120000) ∧
      (1 : ℝ) - Real.cos (71 * Real.pi / 120000) < 0.0000017276 :=
    ⟨by linarith [hcv'.2], by linarith [hcv'.1]⟩
  have hQ : (0.0000013122 : ℝ) < Real.cos (28.6139 * Real.pi / 180) *
        Real.cos (28.7041 * Real.pi / 180) *
          (1 - Real.cos (71 * Real.pi / 120000)) ∧
      Real.cos (28.6139 * Real.pi / 180) * Real.cos (28.7041 * Real.pi / 180) *
          (1 - Real.cos (71 * Real.pi / 120000)) < 0.0000013325 := by
    constructor
    · nlinarith [mul_pos (show (0:ℝ) < Real.cos (28.6139 * Real.pi / 180) *
          Real.cos (28.7041 * Real.pi / 180) by linarith [hP.1])
        (show (0:ℝ) < (1 - Real.cos (71 * Real.pi / 120000)) - 0.0000017275 by
          linarith [h1cv.1]), hP.1, hP.2, h1cv.1, h1cv.2]
    · nlinarith [mul_pos (show (0:ℝ) < Real.cos (28.6139 * Real.pi / 180) *
          Real.cos (28.7041 * Real.pi / 180) by linarith [hP.1])
        (show (0:ℝ) < (0.0000017276 : ℝ) -
            (1 - Real.cos (71 * Real.pi / 120000)) by linarith [h1cv.2]),
        hP.1, hP.2, h1cv.1, h1cv.2]
  -- rewrite the query's argument through the cosine-difference identity
  have hid : cosArg 28.6139 77.2090 28.7041 77.1025 =
      Real.cos (451 * Real.pi / 900000) -
        Real.cos (28.6139 * Real.pi / 180) * Real.cos (28.7041 * Real.pi / 180) *
          (1 - Real.cos (71 * Real.pi / 120000)) := by
    unfold cosArg rad
    rw [show (77.1025 : ℝ) * Real.pi / 180 - 77.2090 * Real.pi / 180 =
        -(71 * Real.pi / 120000) from by ring, Real.cos_neg]
    have h := Real.cos_sub (28.6139 * Real.pi / 180) (28.7041 * Real.pi / 180)
    rw [show (28.6139 : ℝ) * Real.pi / 180 - 28.7041 * Real.pi / 180 =
        -(451 * Real.pi / 900000) from by ring, Real.cos_neg] at h
    linear_combination (-1 : ℝ) * h
  rw [hid]
  constructor
  · linarith [hcu'.1, hQ.2]
  · linarith [hcu'.2, hQ.1]

/-- The Delhi example's computed distance lies strictly between 14 and 15
kilometres. -/
lemma delhi_distance_bounds :
    14 < distance 28.6139 77.2090 28.7041 77.1025 ∧
      distance 28.6139 77.2090 28.7041 77.1025 < 15 := by
  obtain ⟨hclo, hchi⟩ := delhi_carg_bounds
  have hCm1 : -1 ≤ cosArg 28.6139 77.2090 28.7041 77.1025 := by linarith
  have hC1 : cosArg 28.6139 77.2090 28.7041 77.1025 ≤ 1 := by linarith
  have hp1 : (3.141592 : ℝ) < Real.pi := Real.pi_gt_d6
  -- cos(14/6371) exceeds the argument, cos(15/6371) is below it
  have hcos0 : cosArg 28.6139 77.2090 28.7041 77.1025 <
      Real.cos (14 / 6371) := by
    have habs : |(14 : ℝ) / 6371| ≤ 1 := by
      rw [abs_of_pos (by norm_num : (0:ℝ) < 14 / 6371)]
      norm_num
    have hb := abs_le.mp (Real.cos_bound habs)
    rw [abs_of_pos (by norm_num : (0:ℝ) < 14 / 6371)] at hb
    have hrat : (0.99999755 : ℝ) <
        1 - ((14 : ℝ) / 6371) ^ 2 / 2 - ((14 : ℝ) / 6371) ^ 4 * (5 / 96) := by
      norm_num
    linarith [hb.1]
  have hcos1 : Real.cos (15 / 6371) <
      cosArg 28.6139 77.2090 28.7041 77.1025 := by
    have habs : |(15 : ℝ) / 6371| ≤ 1 := by
      rw [abs_of_pos (by norm_num : (0:ℝ) < 15 / 6371)]
      norm_num
    have hb := abs_le.mp (Real.cos_bound habs)
    rw [abs_of_pos (by norm_num : (0:ℝ) < 15 / 6371)] at hb
    have hrat : (1 : ℝ) - ((15 : ℝ) / 6371) ^ 2 / 2 +
        ((15 : ℝ) / 6371) ^ 4 * (5 / 96) < 0.9999973 := by
      norm_num
    linarith [hb.2]
  -- sandwich the arc length between 14/6371 and 15/6371
  have hmemC : cosArg 28.6139 77.2090 28.7041 77.1025 ∈
      Set.Icc (-1 : ℝ) 1 := ⟨hCm1, hC1⟩
  have harc0 : (14 : ℝ) / 6371 <
      Real.arccos (cosArg 28.6139 77.2090 28.7041 77.1025) := by
    have hmem0 : Real.cos (14 / 6371) ∈ Set.Icc (-1 : ℝ) 1 :=
      ⟨Real.neg_one_le_cos _, Real.cos_le_one _⟩
    have h := Real.strictAntiOn_arccos hmemC hmem0 hcos0
    rwa [Real.arccos_cos (by norm_num) (by linarith)] at h
  have harc1 : Real.arccos (cosArg 28.6139 77.2090 28.7041 77.1025) <
      (15 : ℝ) / 6371 := by
    have hmem1 : Real.cos (15 / 6371) ∈ Set.Icc (-1 : ℝ) 1 :=
      ⟨Real.neg_one_le_cos _, Real.cos_le_one _⟩
    have h := Real.strictAntiOn_arccos hmem1 hmemC hcos1
    rwa [Real.arccos_cos (by norm_num) (by linarith)] at h
  constructor
  · unfold distance
    linarith
  · unfold distance
    linarith

/-- C1 (amended): each result row's `distanceKm` is exactly the
spherical-law-of-cosines value
`6371 * acos(cos lat1 * cos lat2 * cos(lon2 - lon1) + sin lat1 * sin lat2)`
with angles in radians; for the spec's Delhi example — origin
(28.6139, 77.2090), candidate (28.7041, 77.1025) — the computed distance
lies strictly between 14 and 15 km (not 13.0–13.5), so the candidate is
still included by the 15 km radius. -/
theorem spec_c1 :
    (∀ (olat olon : ℚ) (d : Donor),
      (mkRow olat olon d).distance =
        6371 * Real.arccos
          (Real.cos ((olat : ℝ) * Real.pi / 180) *
              Real.cos ((d.latitude : ℝ) * Real.pi / 180) *
              Real.cos ((d.longitude : ℝ) * Real.pi / 180 -
                (olon : ℝ) * Real.pi / 180) +
            Real.sin ((olat : ℝ) * Real.pi / 180) *
              Real.sin ((d.latitude : ℝ) * Real.pi / 180))) ∧
    14 < distance 28.6139 77.2090 28.7041 77.1025 ∧
    distance 28.6139 77.2090 28.7041 77.1025 < 15 :=
  ⟨fun _ _ _ => rfl, delhi_distance_bounds.1, delhi_distance_bounds.2⟩

/-- Counterexample to C1 as stated: the Delhi example's computed distance is
not in the claimed band 13.0–13.5 km (it exceeds 14 km). -/
theorem spec_c1_cex :
    ¬(13 ≤ distance 28.6139 77.2090 28.7041 77.1025 ∧
      distance 28.6139 77.2090 28.7041 77.1025 ≤ 13.5) := by
  intro h
  have h14 := delhi_distance_bounds.1
  have h135 : (13.5 : ℝ) < 14 := by norm_num
  linarith [h.2]

end BloodDonation
